import Mathlib

/-!
Shallow embedding of `src/agent/service_registry.py` (AI Platform Service
Registry Client).  Python values flowing through response bodies are
modelled by a small JSON type; Python exceptions by an explicit `PyErr`
sum; every fallible operation returns `Except PyErr _`.  Float-valued
metrics (psutil percentages, GPU load) are modelled as rationals: no claim
depends on floating-point rounding.  External collaborators (the HTTP
transport, psutil, the `time` module, hostname resolution) are supplied
through an `Env` record, one per call.
-/

/-- JSON values as returned by `response.json()`. -/
inductive Json where
  | null
  | bool (b : Bool)
  | num (n : Int)
  | str (s : String)
  | arr (xs : List Json)
  | obj (fs : List (String × Json))

/-- Python exceptions that the client code can raise. -/
inductive PyErr where
  | runtimeError (msg : String)
  | keyError (key : String)
  | attributeError (msg : String)
  | typeError (msg : String)
  | httpError (status : Nat)
  | connectionError (msg : String)
deriving DecidableEq, Repr

/-- Python truthiness of a JSON value (`if x:`). -/
def Json.truthy : Json → Bool
  | .null => false
  | .bool b => b
  | .num n => n != 0
  | .str s => s != ""
  | .arr xs => !xs.isEmpty
  | .obj fs => !fs.isEmpty

/-- Python truthiness of an optional JSON value (`None` is falsy). -/
def pyTruthyOpt : Option Json → Bool
  | none => false
  | some j => j.truthy

/-- `d.get(k)` on a response body: `None` when the key is absent,
`AttributeError` when the value is not a dict. -/
def Json.dictGet : Json → String → Except PyErr (Option Json)
  | .obj fs, k => .ok (List.lookup k fs)
  | _, _ => .error (.attributeError "get")

/-- `d[k]` on a response body: `KeyError` when the key is absent,
`TypeError` when the value is not a dict. -/
def Json.item : Json → String → Except PyErr Json
  | .obj fs, k =>
      match List.lookup k fs with
      | some v => .ok v
      | none => .error (.keyError k)
  | _, _ => .error (.typeError "not subscriptable")

/-- Python `data.get("code") == 0`: `None == 0` is `False`; `0 == 0` and
`False == 0` are `True` (bools are ints in Python). -/
def pyEqZero : Option Json → Bool
  | some (.num 0) => true
  | some (.bool false) => true
  | _ => false

/-- An HTTP response as seen through `requests`. -/
structure HttpResponse where
  status : Nat
  body : Json

/-- `response.raise_for_status()`: raises `HTTPError` for 4xx/5xx. -/
def raiseForStatus (r : HttpResponse) : Except PyErr Unit :=
  if 400 ≤ r.status ∧ r.status < 600 then .error (.httpError r.status) else .ok ()

/-- `time.utcnow()`: Python's `time` module has no attribute `utcnow`
(the code meant `datetime.utcnow()`), so the call always raises
`AttributeError`.  This is the value the real interpreter supplies for
`Env.utcnow`. -/
def timeUtcnow : Except PyErr String :=
  .error (.attributeError "time module has no attribute utcnow")

/-- `ServiceCapabilities` dataclass (defaults from the source). -/
structure ServiceCapabilities where
  supported_models : List String := []
  supported_resolutions : List String := []
  max_batch_size : Int := 4
  supported_formats : List String := ["png", "jpeg"]
  inference_steps_range : List Int := [10, 100]
  guidance_scale_range : List Rat := [1, 20]

/-- `ResourceSpec` dataclass (defaults from the source). -/
structure ResourceSpec where
  gpu_memory : String := "16GB"
  gpu_count : Int := 1
  gpu_model : String := "A10"
  cpu_cores : Int := 8
  memory : String := "32GB"

/-- `PerformanceSpec` dataclass (defaults from the source). -/
structure PerformanceSpec where
  estimated_latency_ms : Int := 2000
  throughput_per_minute : Int := 30
  warmup_time_seconds : Int := 60

/-- State of a `ServiceRegistryClient` instance.  `service_id`,
`heartbeat_interval` and `token` hold whatever JSON values the register
response assigned (`service_id` is `None` before registration).
`threadSpawned` models `self._thread is not None`; `activeTasks` is ghost
bookkeeping counting live background loop threads (0 or 1 in any
reachable state), used to state the single-loop invariant. -/
structure Client where
  service_id : Option Json := none
  heartbeat_interval : Json := .num 30
  token : Json := .str ""
  running : Bool := false
  threadSpawned : Bool := false
  stopEvent : Bool := false
  activeTasks : Nat := 0
  onConfigUpdate : Bool := false
  onShutdown : Bool := false
  capabilities : ServiceCapabilities := {}
  resources : ResourceSpec := {}
  performance : PerformanceSpec := {}

/-- A freshly constructed client (`__init__`). -/
def initClient : Client := {}

/-- The external world for one client call: the result of `time.utcnow()`
(always `timeUtcnow` under the real interpreter), psutil metrics, GPU
utilization (`_get_gpu_utilization` returns 0.0 when the GPU library is
unavailable), hostname/IP resolution, and the transport's answer for each
endpoint (`Except.error` = network/timeout failure raised by `requests`). -/
structure Env where
  utcnow : Except PyErr String
  cpu_percent : Rat
  memory_used : Int
  gpu_utilization : Rat
  hostname : String
  ip_address : String
  registerResponse : Except PyErr HttpResponse
  heartbeatResponse : Except PyErr HttpResponse
  shutdownResponse : Except PyErr HttpResponse

/-- Result of one client method call: the client state afterwards, the
endpoints actually POSTed (in order), and the returned value or the
exception raised. -/
structure CallResult where
  client : Client
  sent : List String
  result : Except PyErr Json

/-- `RuntimeError("Service not registered")`. -/
def notRegisteredErr : PyErr := .runtimeError "Service not registered"

/-- `RegisterRequest` dataclass; `__post_init__` resolves hostname/IP when
left empty (external I/O, supplied by `Env`). -/
structure RegisterRequest where
  service_type : String
  version : String := "1.0.0"
  hostname : String := ""
  ip_address : String := ""
  port : Int := 8080
  capabilities : ServiceCapabilities
  resources : ResourceSpec
  performance : PerformanceSpec

/-- `RegisterRequest.__post_init__`. -/
def RegisterRequest.postInit (r : RegisterRequest) (env : Env) : RegisterRequest :=
  let r := if r.hostname == "" then { r with hostname := env.hostname } else r
  if r.ip_address == "" then { r with ip_address := env.ip_address } else r

/-- `ServiceRegistryClient.register` (lines 114-153): build the request,
POST to `/api/v1/services/register`, `raise_for_status`, then on body code
0 store `data["data"]["service_id"|"heartbeat_interval"|"token"]` into the
client (sequentially: a `KeyError` midway leaves earlier assignments in
place), and return `data["data"]` unconditionally. -/
def register (c : Client) (env : Env) (service_type : String) (version : String := "1.0.0") :
    CallResult :=
  let _req : RegisterRequest :=
    RegisterRequest.postInit
      { service_type := service_type, version := version,
        capabilities := c.capabilities, resources := c.resources,
        performance := c.performance } env
  let sent := ["/api/v1/services/register"]
  match env.registerResponse with
  | .error e => ⟨c, sent, .error e⟩
  | .ok resp =>
    match raiseForStatus resp with
    | .error e => ⟨c, sent, .error e⟩
    | .ok _ =>
      let data := resp.body
      match data.dictGet "code" with
      | .error e => ⟨c, sent, .error e⟩
      | .ok codeOpt =>
        if pyEqZero codeOpt then
          match data.item "data" with
          | .error e => ⟨c, sent, .error e⟩
          | .ok d =>
            match d.item "service_id" with
            | .error e => ⟨c, sent, .error e⟩
            | .ok sid =>
              let c := { c with service_id := some sid }
              match d.item "heartbeat_interval" with
              | .error e => ⟨c, sent, .error e⟩
              | .ok hi =>
                let c := { c with heartbeat_interval := hi }
                match d.item "token" with
                | .error e => ⟨c, sent, .error e⟩
                | .ok tok =>
                  let c := { c with token := tok }
                  match data.item "data" with
                  | .error e => ⟨c, sent, .error e⟩
                  | .ok dd => ⟨c, sent, .ok dd⟩
        else
          match data.item "data" with
          | .error e => ⟨c, sent, .error e⟩
          | .ok dd => ⟨c, sent, .ok dd⟩

/-- `HeartbeatRequest` dataclass. -/
structure HeartbeatRequest where
  service_id : Json
  timestamp : String := ""
  current_load : Rat := 0
  queue_size : Int := 0
  processed_count : Int := 0
  error_count : Int := 0
  cpu_utilization : Rat := 0
  gpu_utilization : Rat := 0
  memory_usage : Int := 0
  token : Json := .str ""

/-- `HeartbeatRequest.__post_init__` (lines 79-81): when `timestamp` is
empty it calls `time.utcnow().isoformat()`, whose result (under the real
interpreter: an `AttributeError`) comes from the environment. -/
def HeartbeatRequest.postInit (r : HeartbeatRequest) (utcnow : Except PyErr String) :
    Except PyErr HeartbeatRequest :=
  if r.timestamp == "" then
    match utcnow with
    | .error e => .error e
    | .ok t => .ok { r with timestamp := t }
  else .ok r

/-- Lines 169-179 of `heartbeat`: construct the `HeartbeatRequest` from
live metrics, caller counters and the stored token. -/
def mkHeartbeatRequest (sid : Json) (c : Client) (env : Env)
    (queue_size processed_count error_count : Int) : Except PyErr HeartbeatRequest :=
  HeartbeatRequest.postInit
    { service_id := sid,
      current_load := env.cpu_percent / 100,
      queue_size := queue_size,
      processed_count := processed_count,
      error_count := error_count,
      cpu_utilization := env.cpu_percent,
      gpu_utilization := env.gpu_utilization,
      memory_usage := env.memory_used,
      token := c.token }
    env.utcnow

/-- `stop_heartbeat_loop` (lines 237-246): no-op when not running;
otherwise clear the running flag, set the stop event, and join the
background thread.  Joining from the loop's own thread raises
`RuntimeError("cannot join current thread")` (Python `Thread.join`);
joining from another thread lets the woken thread exit (the bounded
5-second join is modelled as completing, the timing being outside the
embedding). -/
def stop_heartbeat_loop (c : Client) (fromLoopThread : Bool) : Client × Except PyErr Unit :=
  if !c.running then (c, .ok ())
  else
    let c1 := { c with running := false, stopEvent := true }
    if c1.threadSpawned then
      if fromLoopThread then (c1, .error (.runtimeError "cannot join current thread"))
      else ({ c1 with activeTasks := c1.activeTasks - 1 }, .ok ())
    else (c1, .ok ())

/-- `start_heartbeat_loop` (lines 227-235): no-op when already running;
otherwise set the running flag, clear the stop event, and spawn the
background loop thread. -/
def start_heartbeat_loop (c : Client) : Client :=
  if c.running then c
  else { c with running := true, stopEvent := false, threadSpawned := true,
                activeTasks := c.activeTasks + 1 }

/-- `_handle_drain_request` (lines 285-291): invoke the caller's
`on_shutdown` hook when registered (an external callback, modelled as
having no effect on the client), otherwise log and call
`stop_heartbeat_loop` from the current thread. -/
def handle_drain_request (c : Client) (fromLoopThread : Bool) : Client × Except PyErr Unit :=
  if c.onShutdown then (c, .ok ())
  else stop_heartbeat_loop c fromLoopThread

/-- `heartbeat` (lines 155-198): fail fast with `RuntimeError` when
`self.service_id` is falsy; build the `HeartbeatRequest` (which raises
before any network call when `time.utcnow()` fails); POST to
`/api/v1/services/heartbeat`; `raise_for_status`; on body code 0 read
`data["data"]`, dispatch `config_update` (hook or log, no client state
change) and `drain_requested`; finally return `data["data"]`. -/
def heartbeat (c : Client) (fromLoopThread : Bool) (env : Env)
    (queue_size processed_count error_count : Int := 0) : CallResult :=
  match c.service_id with
  | none => ⟨c, [], .error notRegisteredErr⟩
  | some sid =>
    if !sid.truthy then ⟨c, [], .error notRegisteredErr⟩
    else
      match mkHeartbeatRequest sid c env queue_size processed_count error_count with
      | .error e => ⟨c, [], .error e⟩
      | .ok _req =>
        let sent := ["/api/v1/services/heartbeat"]
        match env.heartbeatResponse with
        | .error e => ⟨c, sent, .error e⟩
        | .ok resp =>
          match raiseForStatus resp with
          | .error e => ⟨c, sent, .error e⟩
          | .ok _ =>
            let data := resp.body
            match data.dictGet "code" with
            | .error e => ⟨c, sent, .error e⟩
            | .ok codeOpt =>
              if pyEqZero codeOpt then
                match data.item "data" with
                | .error e => ⟨c, sent, .error e⟩
                | .ok hb =>
                  match hb.dictGet "config_update" with
                  | .error e => ⟨c, sent, .error e⟩
                  | .ok _cu =>
                    match hb.dictGet "drain_requested" with
                    | .error e => ⟨c, sent, .error e⟩
                    | .ok dr =>
                      match (if pyTruthyOpt dr then handle_drain_request c fromLoopThread
                             else (c, .ok ())) with
                      | (c2, .error e) => ⟨c2, sent, .error e⟩
                      | (c2, .ok _) =>
                        match data.item "data" with
                        | .error e => ⟨c2, sent, .error e⟩
                        | .ok dd => ⟨c2, sent, .ok dd⟩
              else
                match data.item "data" with
                | .error e => ⟨c, sent, .error e⟩
                | .ok dd => ⟨c, sent, .ok dd⟩

/-- `shutdown` (lines 200-225): fail fast with `RuntimeError` when
`self.service_id` is falsy; POST `{service_id, reason}` to
`/api/v1/services/shutdown`; `raise_for_status`; return
`response.json()["data"]`.  No loop state is touched. -/
def shutdown (c : Client) (env : Env) (reason : String := "") : CallResult :=
  match c.service_id with
  | none => ⟨c, [], .error notRegisteredErr⟩
  | some sid =>
    if !sid.truthy then ⟨c, [], .error notRegisteredErr⟩
    else
      let _body : List (String × Json) := [("service_id", sid), ("reason", .str reason)]
      let sent := ["/api/v1/services/shutdown"]
      match env.shutdownResponse with
      | .error e => ⟨c, sent, .error e⟩
      | .ok resp =>
        match raiseForStatus resp with
        | .error e => ⟨c, sent, .error e⟩
        | .ok _ =>
          match resp.body.item "data" with
          | .error e => ⟨c, sent, .error e⟩
          | .ok d => ⟨c, sent, .ok d⟩

/-- `_heartbeat_loop` (lines 248-257), one environment per iteration:
while the running flag holds, try a heartbeat and swallow (log) any
exception; then wait on the stop event.  The returned list collects the
swallowed exceptions; the return type has no error channel because the
loop body catches every exception. -/
def heartbeat_loop (c : Client) : List Env → Client × List PyErr
  | [] => (c, [])
  | env :: rest =>
    if c.running then
      let r := heartbeat c true env
      let swallowed : List PyErr :=
        match r.result with
        | .ok _ => []
        | .error e => [e]
      let next := heartbeat_loop r.client rest
      (next.1, swallowed ++ next.2)
    else (c, [])

/-- External lifecycle calls used to state the single-loop invariant. -/
inductive LoopOp where
  | start
  | stop

/-- Run one external `start_heartbeat_loop` / `stop_heartbeat_loop` call
(from the caller's thread). -/
def runLoopOp (c : Client) : LoopOp → Client
  | .start => start_heartbeat_loop c
  | .stop => (stop_heartbeat_loop c false).1

/-- Run a sequence of external start/stop calls. -/
def runLoopOps (c : Client) (ops : List LoopOp) : Client := ops.foldl runLoopOp c

/-! ## Concrete fixtures used by witnesses and counterexamples -/

/-- An environment where the transport is down and `time.utcnow()` behaves
as under the real interpreter. -/
def emptyEnv : Env :=
  { utcnow := timeUtcnow, cpu_percent := 0, memory_used := 0, gpu_utilization := 0,
    hostname := "worker-1", ip_address := "10.0.0.7",
    registerResponse := .error (.connectionError "connection refused"),
    heartbeatResponse := .error (.connectionError "connection refused"),
    shutdownResponse := .error (.connectionError "connection refused") }

/-- A client that has completed a successful registration. -/
def hbRegClient : Client :=
  { initClient with service_id := some (.str "svc-1"),
                    heartbeat_interval := .num 5, token := .str "tok-1" }

/-! ## Claim theorems -/

/-- Claim C1: with no identity stored (`service_id` is `None`), both
`heartbeat` and `shutdown` raise the "not registered" `RuntimeError`
synchronously and POST to no endpoint, whatever the environment. -/
theorem heartbeat_shutdown_require_registration
    (c : Client) (env env2 : Env) (ft : Bool) (q p e : Int) (reason : String)
    (h : c.service_id = none) :
    heartbeat c ft env q p e = ⟨c, [], .error notRegisteredErr⟩ ∧
    shutdown c env2 reason = ⟨c, [], .error notRegisteredErr⟩ := by
  constructor
  · unfold heartbeat
    rw [h]
  · unfold shutdown
    rw [h]

/-- Witness for C1: a fresh client, concrete environment. -/
theorem heartbeat_shutdown_require_registration_witness :
    initClient.service_id = none ∧
    heartbeat initClient false emptyEnv 0 0 0 = ⟨initClient, [], .error notRegisteredErr⟩ ∧
    shutdown initClient emptyEnv "" = ⟨initClient, [], .error notRegisteredErr⟩ :=
  ⟨rfl, heartbeat_shutdown_require_registration initClient emptyEnv emptyEnv false 0 0 0 "" rfl⟩

/-- Claim C9: `shutdown` never touches the heartbeat loop state: running
flag, stop event, thread and task count (indeed the whole client record)
are unchanged whether the call succeeds or raises. -/
theorem shutdown_preserves_loop_state (c : Client) (env : Env) (reason : String) :
    (shutdown c env reason).client.running = c.running ∧
    (shutdown c env reason).client.stopEvent = c.stopEvent ∧
    (shutdown c env reason).client.threadSpawned = c.threadSpawned ∧
    (shutdown c env reason).client.activeTasks = c.activeTasks ∧
    (shutdown c env reason).client = c := by
  have hc : (shutdown c env reason).client = c := by
    unfold shutdown
    rcases c.service_id with _ | sid
    · rfl
    · dsimp only
      split
      · rfl
      · rcases env.shutdownResponse with e | resp
        · rfl
        · dsimp only
          rcases hr : raiseForStatus resp with e | u
          · rfl
          · rcases hd : resp.body.item "data" with e | d <;> rfl
  exact ⟨by rw [hc], by rw [hc], by rw [hc], by rw [hc], hc⟩

/-- Claim C2: a register call answered with a 2xx response whose body has
code 0 stores exactly the `service_id`, `heartbeat_interval` and `token`
of the body's `data` object into the client, and returns that object. -/
theorem register_success_stores_identity
    (c : Client) (env : Env) (st ver : String) (resp : HttpResponse)
    (sid hi tok d : Json)
    (hresp : env.registerResponse = .ok resp)
    (hlo : 200 ≤ resp.status) (hhi2 : resp.status < 300)
    (hcode : resp.body.dictGet "code" = .ok (some (.num 0)))
    (hdata : resp.body.item "data" = .ok d)
    (hsid : d.item "service_id" = .ok sid)
    (hhi : d.item "heartbeat_interval" = .ok hi)
    (htok : d.item "token" = .ok tok) :
    (register c env st ver).client.service_id = some sid ∧
    (register c env st ver).client.heartbeat_interval = hi ∧
    (register c env st ver).client.token = tok ∧
    (register c env st ver).result = .ok d := by
  have hrfs : raiseForStatus resp = .ok () := by
    unfold raiseForStatus
    rw [if_neg]
    omega
  unfold register
  rw [hresp]
  simp [hrfs, hcode, hdata, hsid, hhi, htok, pyEqZero]

/-- Successful registration response fixture. -/
def regOkBody : Json :=
  .obj [("code", .num 0),
        ("data", .obj [("service_id", .str "svc-1"),
                       ("heartbeat_interval", .num 5),
                       ("token", .str "tok-1")])]

/-- Environment answering register with `regOkBody` at HTTP 200. -/
def regOkEnv : Env := { emptyEnv with registerResponse := .ok ⟨200, regOkBody⟩ }

/-- Witness for C2: concrete success response. -/
theorem register_success_stores_identity_witness :
    (register initClient regOkEnv "text_to_image" "1.0.0").client.service_id
        = some (.str "svc-1") ∧
    (register initClient regOkEnv "text_to_image" "1.0.0").client.heartbeat_interval
        = .num 5 ∧
    (register initClient regOkEnv "text_to_image" "1.0.0").client.token = .str "tok-1" ∧
    (register initClient regOkEnv "text_to_image" "1.0.0").result
        = .ok (.obj [("service_id", .str "svc-1"),
                     ("heartbeat_interval", .num 5),
                     ("token", .str "tok-1")]) :=
  register_success_stores_identity initClient regOkEnv "text_to_image" "1.0.0"
    ⟨200, regOkBody⟩ (.str "svc-1") (.num 5) (.str "tok-1")
    (.obj [("service_id", .str "svc-1"),
           ("heartbeat_interval", .num 5),
           ("token", .str "tok-1")])
    rfl (by decide) (by decide) rfl rfl rfl rfl rfl

/-- A client holding an identity from an earlier successful registration. -/
def preRegClient : Client :=
  { initClient with service_id := some (.str "svc-old"),
                    heartbeat_interval := .num 10, token := .str "tok-old" }

/-- Environment whose register response is HTTP 200 with body code 1. -/
def regRejectEnv : Env :=
  { emptyEnv with registerResponse := .ok ⟨200, .obj [("code", .num 1), ("data", .obj [])]⟩ }

/-- Counterexample to claim C5 as stated: after a register call rejected
with body code 1, a previously registered client still holds its old
identity — the identity is not left unset. -/
theorem register_rejection_identity_not_unset :
    (register preRegClient regRejectEnv "text_to_image" "1.0.0").client.service_id
        = some (.str "svc-old") ∧
    some (Json.str "svc-old") ≠ (none : Option Json) :=
  ⟨rfl, by simp⟩

/-- Claim C5 (amended): a register call whose body carries a non-zero
status code leaves the whole client state unchanged — so the identity
stays unset exactly when it was unset before the call. -/
theorem register_rejection_leaves_client_unchanged
    (c : Client) (env : Env) (st ver : String) (resp : HttpResponse) (co : Option Json)
    (hresp : env.registerResponse = .ok resp)
    (hok : resp.status < 400)
    (hcode : resp.body.dictGet "code" = .ok co)
    (hrej : pyEqZero co = false) :
    (register c env st ver).client = c := by
  have hrfs : raiseForStatus resp = .ok () := by
    unfold raiseForStatus
    rw [if_neg]
    omega
  unfold register
  rw [hresp]
  simp only [hrfs, hcode, hrej, if_neg, Bool.false_eq_true, not_false_iff]
  rcases hd : resp.body.item "data" with e | dd <;> rfl

/-- Witness for the amended C5. -/
theorem register_rejection_leaves_client_unchanged_witness :
    (register preRegClient regRejectEnv "text_to_image" "1.0.0").client = preRegClient :=
  register_rejection_leaves_client_unchanged preRegClient regRejectEnv
    "text_to_image" "1.0.0" ⟨200, .obj [("code", .num 1), ("data", .obj [])]⟩
    (some (.num 1)) rfl (by decide) rfl rfl

/-- Environment for a direct heartbeat answered HTTP 200, body code 7
(server rejection) with a data object; `time.utcnow()` is made to succeed
so the response-handling path is actually reached. -/
def hbRejectEnv : Env :=
  { emptyEnv with
      utcnow := .ok "2026-10-12T00:00:00",
      heartbeatResponse :=
        .ok ⟨200, .obj [("code", .num 7), ("data", .obj [("status", .str "rejected")])]⟩ }

/-- Counterexample to claim C4 as stated: a direct heartbeat call that
receives a 2xx response with non-zero body code returns the body's data
object normally — it does not raise. -/
theorem heartbeat_rejection_returns_normally :
    (heartbeat hbRegClient false hbRejectEnv 0 0 0).result
        = .ok (.obj [("status", .str "rejected")]) ∧
    (heartbeat hbRegClient false hbRejectEnv 0 0 0).client = hbRegClient :=
  ⟨rfl, rfl⟩

/-- Claim C4 (amended): on a 2xx response whose body carries a non-zero
status code, `heartbeat` does not surface the rejection: it skips signal
dispatch and returns the body's `data` field normally, leaving the client
unchanged (only transport failures, non-2xx HTTP statuses, and a missing
`data` key raise). -/
theorem heartbeat_rejection_returns_data
    (c : Client) (env : Env) (ft : Bool) (q p e : Int) (sid dd : Json)
    (ts : String) (resp : HttpResponse) (co : Option Json)
    (hsid : c.service_id = some sid) (htr : sid.truthy = true)
    (hts : env.utcnow = .ok ts)
    (hresp : env.heartbeatResponse = .ok resp) (hok : resp.status < 400)
    (hcode : resp.body.dictGet "code" = .ok co) (hrej : pyEqZero co = false)
    (hdd : resp.body.item "data" = .ok dd) :
    (heartbeat c ft env q p e).result = .ok dd ∧
    (heartbeat c ft env q p e).client = c := by
  have hrfs : raiseForStatus resp = .ok () := by
    unfold raiseForStatus
    rw [if_neg]
    omega
  have hmk : mkHeartbeatRequest sid c env q p e
      = .ok { service_id := sid, timestamp := ts,
              current_load := env.cpu_percent / 100,
              queue_size := q, processed_count := p, error_count := e,
              cpu_utilization := env.cpu_percent,
              gpu_utilization := env.gpu_utilization,
              memory_usage := env.memory_used, token := c.token } := by
    unfold mkHeartbeatRequest HeartbeatRequest.postInit
    rw [hts]
    rfl
  unfold heartbeat
  rw [hsid]
  simp [htr, hmk, hresp, hrfs, hcode, hrej, hdd]

/-- Witness for the amended C4. -/
theorem heartbeat_rejection_returns_data_witness :
    (heartbeat hbRegClient false hbRejectEnv 0 0 0).result
        = .ok (.obj [("status", .str "rejected")]) ∧
    (heartbeat hbRegClient false hbRejectEnv 0 0 0).client = hbRegClient :=
  heartbeat_rejection_returns_data hbRegClient hbRejectEnv false 0 0 0
    (.str "svc-1") (.obj [("status", .str "rejected")]) "2026-10-12T00:00:00"
    ⟨200, .obj [("code", .num 7), ("data", .obj [("status", .str "rejected")])]⟩
    (some (.num 7)) rfl rfl rfl rfl (by decide) rfl rfl rfl

/-- Claim C3 (code evaluated at the failing input): with an identity
stored, `heartbeat` never gets to build its sample: `__post_init__` calls
`time.utcnow()`, which raises `AttributeError` under the real interpreter
(`Env.utcnow = timeUtcnow`), so the call raises before any endpoint is
POSTed, for every metric reading and caller counter. -/
theorem heartbeat_sample_construction_fails
    (c : Client) (env : Env) (ft : Bool) (q p e : Int) (sid : Json)
    (hsid : c.service_id = some sid) (htr : sid.truthy = true)
    (hut : env.utcnow = timeUtcnow) :
    heartbeat c ft env q p e
      = ⟨c, [], .error (.attributeError "time module has no attribute utcnow")⟩ := by
  have hmk : mkHeartbeatRequest sid c env q p e
      = .error (.attributeError "time module has no attribute utcnow") := by
    unfold mkHeartbeatRequest HeartbeatRequest.postInit
    rw [hut]
    rfl
  unfold heartbeat
  rw [hsid]
  simp [htr, hmk]

/-- Environment with live metric readings, a healthy transport, and the
real interpreter's `time.utcnow()`. -/
def hbMetricsEnv : Env :=
  { emptyEnv with
      cpu_percent := (437 : Rat) / 10, memory_used := 8589934592, gpu_utilization := 55,
      heartbeatResponse := .ok ⟨200, .obj [("code", .num 0), ("data", .obj [])]⟩ }

/-- Witness for C3: concrete registered client, concrete metrics. -/
theorem heartbeat_sample_construction_fails_witness :
    heartbeat hbRegClient false hbMetricsEnv 3 10 1
      = ⟨hbRegClient, [], .error (.attributeError "time module has no attribute utcnow")⟩ :=
  heartbeat_sample_construction_fails hbRegClient hbMetricsEnv false 3 10 1
    (.str "svc-1") rfl rfl rfl

/-- Environment for a direct heartbeat whose server answer is HTTP 200
with body `{"code": 0}` and no `data` field, under the real interpreter's
`time.utcnow()`. -/
def hbNoDataEnv : Env :=
  { emptyEnv with heartbeatResponse := .ok ⟨200, .obj [("code", .num 0)]⟩ }

/-- Counterexample to claim C10 as stated: on a 2xx response whose body
lacks `data`, `heartbeat` does not raise `KeyError` — it raises
`AttributeError` from the timestamp construction, before the request is
even sent (no endpoint POSTed). -/
theorem heartbeat_missing_data_not_keyerror :
    heartbeat hbRegClient false hbNoDataEnv 0 0 0
      = ⟨hbRegClient, [], .error (.attributeError "time module has no attribute utcnow")⟩ :=
  rfl

/-- Claim C10 (amended): on a 2xx response whose body (an object) lacks
`data`, `register` and `shutdown` raise `KeyError("data")` instead of
returning, whatever the body's status code; `heartbeat`'s response
handling would do the same, but under the real interpreter every
`heartbeat` call raises `AttributeError` from `time.utcnow()` before any
request is issued, so it never observes a response. -/
theorem missing_data_field_behavior :
    (∀ (c : Client) (env : Env) (st ver : String) (resp : HttpResponse) (co : Option Json),
      env.registerResponse = .ok resp → resp.status < 400 →
      resp.body.dictGet "code" = .ok co →
      resp.body.item "data" = .error (.keyError "data") →
      (register c env st ver).result = .error (.keyError "data")) ∧
    (∀ (c : Client) (env : Env) (reason : String) (sid : Json) (resp : HttpResponse),
      c.service_id = some sid → sid.truthy = true →
      env.shutdownResponse = .ok resp → resp.status < 400 →
      resp.body.item "data" = .error (.keyError "data") →
      (shutdown c env reason).result = .error (.keyError "data")) ∧
    (∀ (c : Client) (env : Env) (ft : Bool) (q p e : Int) (sid : Json),
      c.service_id = some sid → sid.truthy = true →
      env.utcnow = timeUtcnow →
      (heartbeat c ft env q p e).sent = [] ∧
      (heartbeat c ft env q p e).result
        = .error (.attributeError "time module has no attribute utcnow")) := by
  refine ⟨?_, ?_, ?_⟩
  · intro c env st ver resp co hresp hok hcode hmiss
    have hrfs : raiseForStatus resp = .ok () := by
      unfold raiseForStatus
      rw [if_neg]
      omega
    unfold register
    rw [hresp]
    simp only [hrfs, hcode, hmiss]
    rcases hz : pyEqZero co <;> simp [hz, hmiss]
  · intro c env reason sid resp hsid htr hresp hok hmiss
    have hrfs : raiseForStatus resp = .ok () := by
      unfold raiseForStatus
      rw [if_neg]
      omega
    unfold shutdown
    rw [hsid]
    simp [htr, hresp, hrfs, hmiss]
  · intro c env ft q p e sid hsid htr hut
    have hmk : mkHeartbeatRequest sid c env q p e
        = .error (.attributeError "time module has no attribute utcnow") := by
      unfold mkHeartbeatRequest HeartbeatRequest.postInit
      rw [hut]
      rfl
    unfold heartbeat
    rw [hsid]
    simp [htr, hmk]

/-- Environments answering register and shutdown with HTTP 200 bodies
that lack the `data` field. -/
def noDataEnv : Env :=
  { emptyEnv with
      registerResponse := .ok ⟨200, .obj [("code", .num 0)]⟩,
      shutdownResponse := .ok ⟨204, .obj [("ok", .bool true)]⟩ }

/-- Witness for the amended C10: all three call sites at concrete inputs. -/
theorem missing_data_field_behavior_witness :
    (register initClient noDataEnv "text_to_image" "1.0.0").result
        = .error (.keyError "data") ∧
    (shutdown hbRegClient noDataEnv "maintenance").result = .error (.keyError "data") ∧
    (heartbeat hbRegClient false noDataEnv 0 0 0).sent = [] ∧
    (heartbeat hbRegClient false noDataEnv 0 0 0).result
        = .error (.attributeError "time module has no attribute utcnow") :=
  ⟨missing_data_field_behavior.1 initClient noDataEnv "text_to_image" "1.0.0"
      ⟨200, .obj [("code", .num 0)]⟩ (some (.num 0)) rfl (by decide) rfl rfl,
   missing_data_field_behavior.2.1 hbRegClient noDataEnv "maintenance"
      (.str "svc-1") ⟨204, .obj [("ok", .bool true)]⟩ rfl rfl rfl (by decide) rfl,
   missing_data_field_behavior.2.2 hbRegClient noDataEnv false 0 0 0
      (.str "svc-1") rfl rfl rfl⟩

/-- A registered client whose heartbeat loop is running on its background
thread, with no `on_shutdown` hook registered. -/
def drainClient : Client :=
  { initClient with service_id := some (.str "svc-1"), token := .str "tok-1",
                    running := true, threadSpawned := true, activeTasks := 1 }

/-- Environment delivering a heartbeat response with `drain_requested:
true` (and a working `time.utcnow()` so the response is reached). -/
def drainEnv : Env :=
  { emptyEnv with
      utcnow := .ok "2026-10-12T00:00:00",
      heartbeatResponse :=
        .ok ⟨200, .obj [("code", .num 0),
                        ("data", .obj [("drain_requested", .bool true)])]⟩ }

/-- Claim C8 (code evaluated at the failing input): a drain request with
no hook, dispatched from inside the loop's own thread, does flip the loop
to stopped (running flag cleared, stop event set) — but the stop path
then calls `Thread.join` on the current thread, which raises
`RuntimeError("cannot join current thread")` instead of skipping the
self-join: the self-stop errors. -/
theorem drain_self_stop_raises :
    (heartbeat drainClient true drainEnv 0 0 0).client.running = false ∧
    (heartbeat drainClient true drainEnv 0 0 0).client.stopEvent = true ∧
    (heartbeat drainClient true drainEnv 0 0 0).result
      = .error (.runtimeError "cannot join current thread") :=
  ⟨rfl, rfl, rfl⟩

/-! ## Loop lifecycle invariant (C6) -/

/-- Lifecycle invariant of the heartbeat loop: the number of live
background tasks is 1 when the running flag is set and 0 otherwise, and a
running loop always has its thread object. -/
def LoopInv (c : Client) : Prop :=
  c.activeTasks = (if c.running then 1 else 0) ∧ (c.running = true → c.threadSpawned = true)

/-- A fresh client satisfies the lifecycle invariant. -/
lemma loopInv_init : LoopInv initClient := by
  constructor <;> decide

/-- One external start/stop call preserves the lifecycle invariant. -/
lemma loopInv_step (c : Client) (h : LoopInv c) (op : LoopOp) : LoopInv (runLoopOp c op) := by
  obtain ⟨h1, h2⟩ := h
  cases op with
  | start =>
    by_cases hr : c.running = true
    · unfold runLoopOp start_heartbeat_loop
      rw [if_pos hr]
      exact ⟨h1, h2⟩
    · have hr' : c.running = false := Bool.not_eq_true _ ▸ eq_false_of_ne_true hr
      rw [hr', if_neg (by simp)] at h1
      unfold runLoopOp start_heartbeat_loop
      rw [if_neg hr]
      exact ⟨by simp [h1], by simp⟩
  | stop =>
    by_cases hr : c.running = true
    · have ht := h2 hr
      rw [hr, if_pos rfl] at h1
      unfold runLoopOp stop_heartbeat_loop
      rw [hr]
      simp only [Bool.not_true, Bool.false_eq_true, if_false, ht, if_pos]
      exact ⟨by simp [h1], by simp⟩
    · have hr' : c.running = false := eq_false_of_ne_true hr
      unfold runLoopOp stop_heartbeat_loop
      rw [hr']
      simp only [Bool.not_false, if_pos]
      exact ⟨h1, h2⟩

/-- The lifecycle invariant holds after any sequence of external calls. -/
lemma loopInv_runOps (c : Client) (h : LoopInv c) (ops : List LoopOp) :
    LoopInv (runLoopOps c ops) := by
  induction ops generalizing c with
  | nil => exact h
  | cons op rest ih =>
    simp only [runLoopOps, List.foldl_cons]
    exact ih _ (loopInv_step c h op)

/-- Claim C6: along every sequence of external
`start_heartbeat_loop` / `stop_heartbeat_loop` calls from a fresh client,
at most one background heartbeat task is ever alive; `start` is
idempotent, and in particular a second `start` on a running client is a
no-op, leaving exactly the one task. -/
theorem single_heartbeat_loop
    : (∀ ops : List LoopOp, (runLoopOps initClient ops).activeTasks ≤ 1) ∧
      (∀ c : Client, start_heartbeat_loop (start_heartbeat_loop c) = start_heartbeat_loop c) ∧
      (∀ c : Client, c.running = true → start_heartbeat_loop c = c) := by
  refine ⟨?_, ?_, ?_⟩
  · intro ops
    obtain ⟨h1, _⟩ := loopInv_runOps initClient loopInv_init ops
    rw [h1]
    split <;> omega
  · intro c
    by_cases hr : c.running = true
    · unfold start_heartbeat_loop
      rw [if_pos hr, if_pos hr]
    · unfold start_heartbeat_loop
      rw [if_neg hr]
      rw [if_pos rfl]
  · intro c hr
    unfold start_heartbeat_loop
    rw [if_pos hr]

/-- Witness for C6: a concrete call sequence and a concrete running
client. -/
theorem single_heartbeat_loop_witness :
    (runLoopOps initClient [.start, .start, .stop, .start]).activeTasks ≤ 1 ∧
    start_heartbeat_loop (start_heartbeat_loop initClient)
      = start_heartbeat_loop initClient ∧
    drainClient.running = true ∧ start_heartbeat_loop drainClient = drainClient :=
  ⟨single_heartbeat_loop.1 [.start, .start, .stop, .start],
   single_heartbeat_loop.2.1 initClient,
   rfl, single_heartbeat_loop.2.2 drainClient rfl⟩

/-! ## Loop resilience (C7) -/

/-- A heartbeat attempt that raises a network, server, or parsing
exception, characterized on the environment: the sample construction
fails (`time.utcnow()` raising — the failure every attempt of the real
program produces), the transport raises, the server answers a non-2xx
(4xx/5xx) status, or a delivered body cannot be read as the code expects
(`.get` on a non-dict body, a missing `"data"` key, or `.get` on a
non-dict data object).  A truthy `drain_requested` dispatch is not a
failure in this sense: it is the loop's own self-stop (see C8). -/
def FailingAttempt (env : Env) : Prop :=
  (∃ e, env.utcnow = .error e) ∨
  (∃ e, env.heartbeatResponse = .error e) ∨
  (∃ resp, env.heartbeatResponse = .ok resp ∧
    ((400 ≤ resp.status ∧ resp.status < 600) ∨
     (∃ e, resp.body.dictGet "code" = .error e) ∨
     (∃ co, resp.body.dictGet "code" = .ok co ∧
       ((∃ e, resp.body.item "data" = .error e) ∨
        (pyEqZero co = true ∧
         ∃ hb, resp.body.item "data" = .ok hb ∧
           ((∃ e, hb.dictGet "config_update" = .error e) ∨
            (∃ e, hb.dictGet "drain_requested" = .error e)))))))

/-- Any failing heartbeat attempt (network, server, or parsing) raises
and leaves the client state untouched: every such failure fires before
the drain dispatch, the only place `heartbeat` mutates the client. -/
lemma heartbeat_failing_attempt (c : Client) (env : Env) (h : FailingAttempt env) :
    (heartbeat c true env).client = c ∧
    ∃ e2, (heartbeat c true env).result = .error e2 := by
  unfold heartbeat
  rcases hsid : c.service_id with _ | sid
  · exact ⟨rfl, _, rfl⟩
  · dsimp only
    rcases htr : sid.truthy
    · exact ⟨rfl, _, rfl⟩
    · rcases hut : env.utcnow with e | ts
      · have hmk : mkHeartbeatRequest sid c env 0 0 0 = .error e := by
          unfold mkHeartbeatRequest HeartbeatRequest.postInit
          rw [hut]
          rfl
        rw [hmk]
        exact ⟨rfl, _, rfl⟩
      · have hmk : mkHeartbeatRequest sid c env 0 0 0
            = .ok { service_id := sid, timestamp := ts,
                    current_load := env.cpu_percent / 100,
                    queue_size := 0, processed_count := 0, error_count := 0,
                    cpu_utilization := env.cpu_percent,
                    gpu_utilization := env.gpu_utilization,
                    memory_usage := env.memory_used, token := c.token } := by
          unfold mkHeartbeatRequest HeartbeatRequest.postInit
          rw [hut]
          rfl
        rw [hmk]
        rcases hresp : env.heartbeatResponse with e | resp
        · exact ⟨rfl, _, rfl⟩
        · dsimp only
          rcases hrfs : raiseForStatus resp with e | u
          · exact ⟨rfl, _, rfl⟩
          · dsimp only
            rcases hcode : resp.body.dictGet "code" with e | co
            · exact ⟨rfl, _, rfl⟩
            · dsimp only
              rcases hz : pyEqZero co
              · rcases hdd : resp.body.item "data" with e | dd
                · exact ⟨rfl, _, rfl⟩
                · exfalso
                  rcases h with ⟨e, he⟩ | ⟨e, he⟩ | ⟨resp2, hr2, hcase⟩
                  · rw [hut] at he
                    exact Except.noConfusion he
                  · rw [hresp] at he
                    exact Except.noConfusion he
                  · rw [hresp] at hr2
                    injection hr2 with hr2
                    subst hr2
                    rcases hcase with hstat | ⟨e, he⟩ | ⟨co2, hco2, hsub⟩
                    · unfold raiseForStatus at hrfs
                      rw [if_pos hstat] at hrfs
                      exact Except.noConfusion hrfs
                    · rw [hcode] at he
                      exact Except.noConfusion he
                    · rw [hcode] at hco2
                      injection hco2 with hco2
                      subst hco2
                      rcases hsub with ⟨e, he⟩ | ⟨hz2, -⟩
                      · rw [hdd] at he
                        exact Except.noConfusion he
                      · rw [hz] at hz2
                        exact Bool.noConfusion hz2
              · rcases hdata : resp.body.item "data" with e | hb
                · exact ⟨rfl, _, rfl⟩
                · dsimp only
                  rcases hcu : hb.dictGet "config_update" with e | cu
                  · exact ⟨rfl, _, rfl⟩
                  · dsimp only
                    rcases hdr : hb.dictGet "drain_requested" with e | dr
                    · exact ⟨rfl, _, rfl⟩
                    · exfalso
                      rcases h with ⟨e, he⟩ | ⟨e, he⟩ | ⟨resp2, hr2, hcase⟩
                      · rw [hut] at he
                        exact Except.noConfusion he
                      · rw [hresp] at he
                        exact Except.noConfusion he
                      · rw [hresp] at hr2
                        injection hr2 with hr2
                        subst hr2
                        rcases hcase with hstat | ⟨e, he⟩ | ⟨co2, hco2, hsub⟩
                        · unfold raiseForStatus at hrfs
                          rw [if_pos hstat] at hrfs
                          exact Except.noConfusion hrfs
                        · rw [hcode] at he
                          exact Except.noConfusion he
                        · rw [hcode] at hco2
                          injection hco2 with hco2
                          subst hco2
                          rcases hsub with ⟨e, he⟩ | ⟨hz2, hb2, hhb2, hget⟩
                          · rw [hdata] at he
                            exact Except.noConfusion he
                          · rw [hdata] at hhb2
                            injection hhb2 with hhb2
                            subst hhb2
                            rcases hget with ⟨e, he⟩ | ⟨e, he⟩
                            · rw [hcu] at he
                              exact Except.noConfusion he
                            · rw [hdr] at he
                              exact Except.noConfusion he

/-- A heartbeat attempt answered 2xx with body code 0 and no truthy
`drain_requested` returns the data object and leaves the client
untouched. -/
lemma heartbeat_success_no_drain (c : Client) (env : Env) (sid hb : Json)
    (ts : String) (resp : HttpResponse) (cu dr : Option Json)
    (hsid : c.service_id = some sid) (htr : sid.truthy = true)
    (hts : env.utcnow = .ok ts)
    (hresp : env.heartbeatResponse = .ok resp) (hok : resp.status < 400)
    (hcode : resp.body.dictGet "code" = .ok (some (.num 0)))
    (hdata : resp.body.item "data" = .ok hb)
    (hcu : hb.dictGet "config_update" = .ok cu)
    (hdr : hb.dictGet "drain_requested" = .ok dr) (hndr : pyTruthyOpt dr = false) :
    heartbeat c true env = ⟨c, ["/api/v1/services/heartbeat"], .ok hb⟩ := by
  have hrfs : raiseForStatus resp = .ok () := by
    unfold raiseForStatus
    rw [if_neg]
    omega
  have hmk : mkHeartbeatRequest sid c env 0 0 0
      = .ok { service_id := sid, timestamp := ts,
              current_load := env.cpu_percent / 100,
              queue_size := 0, processed_count := 0, error_count := 0,
              cpu_utilization := env.cpu_percent,
              gpu_utilization := env.gpu_utilization,
              memory_usage := env.memory_used, token := c.token } := by
    unfold mkHeartbeatRequest HeartbeatRequest.postInit
    rw [hts]
    rfl
  unfold heartbeat
  rw [hsid]
  simp [htr, hmk, hresp, hrfs, hcode, hdata, hcu, hdr, hndr, pyEqZero]

/-- Running the loop over any prefix of failing iterations (network,
server, or parsing failures): the client state is carried through
unchanged and each failure contributes exactly one swallowed (logged)
exception. -/
lemma heartbeat_loop_fail_prefix (fails : List Env) (l2 : List Env) (c : Client)
    (hrun : c.running = true)
    (hf : ∀ env ∈ fails, FailingAttempt env) :
    (heartbeat_loop c (fails ++ l2)).1 = (heartbeat_loop c l2).1 ∧
    (heartbeat_loop c (fails ++ l2)).2.length
      = fails.length + (heartbeat_loop c l2).2.length := by
  induction fails with
  | nil => simp
  | cons env rest ih =>
    obtain ⟨hcl, e2, hres⟩ := heartbeat_failing_attempt c env (hf env (by simp))
    obtain ⟨ih1, ih2⟩ := ih (fun e he => hf e (by simp [he]))
    simp only [List.cons_append, heartbeat_loop, hrun, if_true, hcl, hres]
    refine ⟨ih1, ?_⟩
    simp only [List.append_eq, List.nil_append, List.length_cons, ih2]
    omega

/-- Claim C7: starting from a running loop, any number of consecutive
heartbeat attempts that raise — with a network, server, or parsing
exception (transport failure, non-2xx HTTP status, unreadable body, or
the `time.utcnow()` construction error the real program produces) — are
swallowed one logged exception each, the loop state (the whole client)
is unchanged and stays running, and a subsequent successful attempt
completes with the state still running.  No exception escapes:
`heartbeat_loop` has no error channel, mirroring the `try`/`except` at
the loop boundary. -/
theorem heartbeat_loop_survives_failures
    (c : Client) (fails : List Env) (succEnv : Env) (sid hb : Json)
    (ts : String) (resp : HttpResponse) (cu dr : Option Json)
    (hrun : c.running = true)
    (hsid : c.service_id = some sid) (htr : sid.truthy = true)
    (hf : ∀ env ∈ fails, FailingAttempt env)
    (hts : succEnv.utcnow = .ok ts)
    (hresp : succEnv.heartbeatResponse = .ok resp) (hok : resp.status < 400)
    (hcode : resp.body.dictGet "code" = .ok (some (.num 0)))
    (hdata : resp.body.item "data" = .ok hb)
    (hcu : hb.dictGet "config_update" = .ok cu)
    (hdr : hb.dictGet "drain_requested" = .ok dr) (hndr : pyTruthyOpt dr = false) :
    (heartbeat_loop c (fails ++ [succEnv])).1 = c ∧
    (heartbeat_loop c (fails ++ [succEnv])).1.running = true ∧
    (heartbeat_loop c (fails ++ [succEnv])).2.length = fails.length := by
  have hsucc := heartbeat_success_no_drain c succEnv sid hb ts resp cu dr
    hsid htr hts hresp hok hcode hdata hcu hdr hndr
  have hone : heartbeat_loop c [succEnv] = (c, []) := by
    simp only [heartbeat_loop, hrun, if_true, hsucc]
    rfl
  obtain ⟨h1, h2⟩ := heartbeat_loop_fail_prefix fails [succEnv] c hrun hf
  rw [hone] at h1 h2
  exact ⟨h1, by rw [h1, hrun], by simpa using h2⟩

/-- A registered client whose loop is running (for the C7 witness). -/
def loopClient : Client :=
  { hbRegClient with running := true, threadSpawned := true, activeTasks := 1 }

/-- Failing attempt of the construction kind (for the C7 witness): the
real interpreter's `time.utcnow()` AttributeError, even though a healthy
response was available. -/
def fEnvTime : Env :=
  { emptyEnv with
      heartbeatResponse := .ok ⟨200, .obj [("code", .num 0), ("data", .obj [])]⟩ }

/-- Failing attempt of the network kind (for the C7 witness): the
transport raises ConnectionError. -/
def fEnvNet : Env :=
  { emptyEnv with utcnow := .ok "2026-10-12T00:00:01" }

/-- Failing attempt of the server kind (for the C7 witness): HTTP 500,
so `raise_for_status` raises. -/
def fEnvHttp : Env :=
  { emptyEnv with
      utcnow := .ok "2026-10-12T00:00:02",
      heartbeatResponse := .ok ⟨500, .obj [("code", .num 500)]⟩ }

/-- Failing attempt of the parsing kind (for the C7 witness): HTTP 200
whose body lacks the `data` key, so `data["data"]` raises KeyError. -/
def fEnvKey : Env :=
  { emptyEnv with
      utcnow := .ok "2026-10-12T00:00:03",
      heartbeatResponse := .ok ⟨200, .obj [("code", .num 0)]⟩ }

/-- Successful, drain-free heartbeat environment (for the C7 witness). -/
def hbLoopOkEnv : Env :=
  { emptyEnv with
      utcnow := .ok "2026-10-12T00:00:05",
      heartbeatResponse := .ok ⟨200, .obj [("code", .num 0), ("data", .obj [])]⟩ }

/-- Witness for C7: four consecutive failing attempts — one of each kind
the claim names (construction/AttributeError, network, server 500,
parsing/KeyError) — followed by one success leave the loop running with
exactly four swallowed errors. -/
theorem heartbeat_loop_survives_failures_witness :
    (heartbeat_loop loopClient [fEnvTime, fEnvNet, fEnvHttp, fEnvKey, hbLoopOkEnv]).1
        = loopClient ∧
    (heartbeat_loop loopClient [fEnvTime, fEnvNet, fEnvHttp, fEnvKey, hbLoopOkEnv]).1.running
        = true ∧
    (heartbeat_loop loopClient [fEnvTime, fEnvNet, fEnvHttp, fEnvKey, hbLoopOkEnv]).2.length
        = 4 := by
  have h := heartbeat_loop_survives_failures loopClient [fEnvTime, fEnvNet, fEnvHttp, fEnvKey]
    hbLoopOkEnv (.str "svc-1") (.obj []) "2026-10-12T00:00:05"
    ⟨200, .obj [("code", .num 0), ("data", .obj [])]⟩ none none
    rfl rfl rfl
    (by
      intro env henv
      simp only [List.mem_cons, List.not_mem_nil, or_false] at henv
      rcases henv with rfl | rfl | rfl | rfl
      · exact Or.inl ⟨_, rfl⟩
      · exact Or.inr (Or.inl ⟨_, rfl⟩)
      · exact Or.inr (Or.inr ⟨⟨500, .obj [("code", .num 500)]⟩, rfl, Or.inl (by decide)⟩)
      · exact Or.inr (Or.inr ⟨⟨200, .obj [("code", .num 0)]⟩, rfl,
          Or.inr (Or.inr ⟨some (.num 0), rfl, Or.inl ⟨.keyError "data", rfl⟩⟩)⟩))
    rfl rfl (by decide) rfl rfl rfl rfl rfl
  simpa using h
